import Mathlib

set_option maxRecDepth 8000

/-!
Verification of the retry/fallback completion requester and the journal
routes of the vent_backend repository.

The embedding below is a shallow model of the JavaScript source.  The
detailed implementation (the unnamed source file, called part_000 below)
is the one whose line numbers the documented properties refer to; the
condensed server.js variant is modelled separately where a property
cites it (the transcription route).  Remote I/O is modelled by an
oracle `rs : Nat → FetchResult` giving the outcome of the k-th fetch,
and the recursive retry loop is run with explicit fuel: a result of
`fuelOut` for every fuel amount means the recursion never returns.
JavaScript strings are modelled as Lean strings (lists of characters);
the inputs of interest contain no surrogate pairs, so JS code-unit
indexing and character indexing agree.
-/

/-- The JS whitespace class, as matched by `\s` in a regular expression and
by `String.prototype.trim`. -/
def jsWhitespace (c : Char) : Bool :=
  c == ' ' || c == '\t' || c == '\n' || c == '\r' || c == '\x0B' || c == '\x0C' ||
  c == '\u00A0' || c == '\u1680' ||
  (decide ('\u2000' ≤ c) && decide (c ≤ '\u200A')) ||
  c == '\u2028' || c == '\u2029' || c == '\u202F' || c == '\u205F' ||
  c == '\u3000' || c == '\uFEFF'

/-- Case-insensitive literal match: `matchCI pat l` consumes `pat`
(given in lower case) from the front of `l`, returning the rest. -/
def matchCI : List Char → List Char → Option (List Char)
  | [], rest => some rest
  | _ :: _, [] => none
  | p :: ps, c :: cs => if c.toLower = p then matchCI ps cs else none

/-- The fixed head of the sentiment tag pattern, `\[SENTIMENT:` with the
`i` flag, i.e. the literal characters compared case-insensitively. -/
def sentimentHead : List Char :=
  ['[', 's', 'e', 'n', 't', 'i', 'm', 'e', 'n', 't', ':']

def positiveChars : List Char := ['p', 'o', 's', 'i', 't', 'i', 'v', 'e']

def negativeChars : List Char := ['n', 'e', 'g', 'a', 't', 'i', 'v', 'e']

/-- Match the regex `\[SENTIMENT:\s*(positive|negative)\]` (flag `i`) at
the start of `l`.  On success, return the lower-cased capture together
with the characters after the closing bracket.  `\s*` is greedy and no
alternative of the group starts with whitespace, so maximal munch agrees
with the backtracking regex engine. -/
def matchTagAt (l : List Char) : Option (String × List Char) :=
  match matchCI sentimentHead l with
  | none => none
  | some r1 =>
    let r2 := r1.dropWhile jsWhitespace
    match matchCI positiveChars r2 with
    | some (']' :: r3) => some ("positive", r3)
    | _ =>
      match matchCI negativeChars r2 with
      | some (']' :: r3) => some ("negative", r3)
      | _ => none

/-- Scan for the first position where the sentiment tag matches,
returning the lower-cased capture group. -/
def findTag : List Char → Option String
  | [] => none
  | c :: cs =>
    match matchTagAt (c :: cs) with
    | some (n, _) => some n
    | none => findTag cs

/-- `extractNature` from the source: first match of
`/\[SENTIMENT:\s*(positive|negative)\]/i`, lower-cased; defaults to
"positive" when the tag is absent. -/
def extractNature (aiResponse : String) : String :=
  (findTag aiResponse.toList).getD "positive"

/-- One application of
`replace(/\[SENTIMENT:\s*(positive|negative)\]\s*/i, "")`: the first
match of the tag pattern, together with the trailing run of whitespace,
is deleted; everything else is kept. -/
def stripTagOnce : List Char → List Char
  | [] => []
  | c :: cs =>
    match matchTagAt (c :: cs) with
    | some (_, rest) => rest.dropWhile jsWhitespace
    | none => c :: stripTagOnce cs

/-- `String.prototype.trim`. -/
def jsTrim (l : List Char) : List Char :=
  ((l.dropWhile jsWhitespace).reverse.dropWhile jsWhitespace).reverse

/-- The cleaned analysis computed in the /analyze route: strip the first
sentiment tag (with trailing whitespace) and trim the result. -/
def cleanedAnalysis (aiResponse : String) : String :=
  String.mk (jsTrim (stripTagOnce aiResponse.toList))

/-- JS `String.prototype.includes`, on character lists:
`includesSub l pat` is true when `pat` occurs contiguously in `l`. -/
def startsWithChars : List Char → List Char → Bool
  | _, [] => true
  | [], _ :: _ => false
  | c :: cs, p :: ps => c == p && startsWithChars cs ps

def includesSub : List Char → List Char → Bool
  | [], pat => startsWithChars [] pat
  | c :: cs, pat => startsWithChars (c :: cs) pat || includesSub cs pat

/-- Shape of `data.choices` in the parsed completion body, as far as the
code inspects it: `!data.choices`, `!data.choices[0]`,
`!data.choices[0].message` and finally `data.choices[0].message.content`
(`none` standing for an absent / undefined content field). -/
inductive Choices where
  | missing
  | emptyFirst
  | noMessage
  | message (content : Option String)
  deriving DecidableEq

/-- A completion response: HTTP status plus the parsed JSON body fields
the code reads (`data.choices`, `data.error?.message`) and the
transport statusText. -/
structure ApiResponse where
  status : Nat
  choices : Choices
  errMsg : Option String
  statusText : String
  deriving DecidableEq

/-- Outcome of one `fetch` of the completion endpoint: either a response
(whose body parses), or a thrown network error whose message is
"fetch failed". -/
inductive FetchResult where
  | resp (r : ApiResponse)
  | netFail
  deriving DecidableEq

/-- The errors `callOpenRouter` can propagate to its caller. -/
inductive CallError where
  | rateLimitExhausted
  | apiError (status : Nat) (msg : String)
  | invalidStructure
  | networkError
  deriving DecidableEq

/-- The `error.message` string of each propagated error, as constructed
by the source. -/
def CallError.jsMessage : CallError → String
  | .rateLimitExhausted =>
      "Rate limit exceeded. Free tier models are currently busy. Please try again in a few minutes."
  | .apiError status msg => "OpenRouter API error: " ++ toString status ++ " - " ++ msg
  | .invalidStructure => "Invalid response structure from OpenRouter API"
  | .networkError => "fetch failed"

/-- A finished call: either a returned value (the content field, which
the code returns without checking it is present, `none` standing for
undefined) or a thrown error. -/
inductive CallResult where
  | content (c : Option String)
  | err (e : CallError)
  deriving DecidableEq

/-- Observable log of a run: the model chain indices queried by each
fetch, in order, and the sleep durations in milliseconds, in order. -/
structure RunLog where
  models : List Nat
  sleeps : List Nat
  deriving DecidableEq

def RunLog.append (a b : RunLog) : RunLog :=
  ⟨a.models ++ b.models, a.sleeps ++ b.sleeps⟩

/-- Result of running `callOpenRouter` with a given amount of fuel:
`done result next log` when the recursion finished having consumed the
responses below `next`, `fuelOut log` when the fuel ran out first. -/
inductive RunResult where
  | done (r : CallResult) (next : Nat) (log : RunLog)
  | fuelOut (log : RunLog)
  deriving DecidableEq

/-- Prepend a log to the log of a run. -/
def addLog (a : RunLog) : RunResult → RunResult
  | .done r n l => .done r n (a.append l)
  | .fuelOut l => .fuelOut (a.append l)

def isFuelOut : RunResult → Bool
  | .fuelOut _ => true
  | .done _ _ _ => false

def runLogOf : RunResult → RunLog
  | .done _ _ l => l
  | .fuelOut l => l

def maxRetries : Nat := 2

def baseDelay : Nat := 3000

/-- The model fallback chain; the primary entry is configurable through
the environment, the rest is static. -/
def MODEL_FALLBACKS (primary : String) : List String :=
  [primary,
   "google/gemini-2.0-flash-exp:free",
   "meta-llama/llama-3.2-3b-instruct:free",
   "nousresearch/hermes-3-llama-3.1-405b:free",
   "openai/gpt-3.5-turbo"]

/-- `MODEL_FALLBACKS.length`, which does not depend on the primary. -/
def chainLength : Nat := 5

/-- `response.ok` of fetch: status in the range 200 to 299. -/
def respOk (s : Nat) : Prop := 200 ≤ s ∧ s ≤ 299

instance (s : Nat) : Decidable (respOk s) :=
  inferInstanceAs (Decidable (_ ∧ _))

/-- JS `a || b` on `data.error?.message || response.statusText`:
an absent or empty message falls back to the statusText. -/
def jsOr : Option String → String → String
  | some s, d => if s = ("") then d else s
  | none, d => d

def fetchFailedNeedle : List Char := "fetch failed".toList

/-- One unfolding of the body of `callOpenRouter` (part_000 lines
157-275).  `recur k rc mi` stands for the recursive call
`callOpenRouter(systemPrompt, userMessage, rc, mi)` issued when `k`
responses have already been consumed.  Recursive calls made inside the
`try` block have their thrown errors filtered by the `catch` of the
current frame, which retries on a message containing "fetch failed"
while `retryCount < maxRetries` and rethrows otherwise; the retry issued
from inside the `catch` is not itself protected by it. -/
def callOpenRouterStep (recur : Nat → Nat → Nat → RunResult)
    (rs : Nat → FetchResult) (k retryCount modelIndex : Nat) : RunResult :=
  addLog ⟨[modelIndex], []⟩ <|
    match rs k with
    | .netFail =>
      -- the fetch itself threw: caught by this frame, retried in the catch
      if retryCount < maxRetries then
        addLog ⟨[], [baseDelay * 2 ^ retryCount]⟩ (recur (k+1) (retryCount+1) modelIndex)
      else .done (.err .networkError) (k+1) ⟨[], []⟩
    | .resp r =>
      if r.status = 429 then
        if modelIndex < chainLength - 1 then
          -- switch to the next model, resetting the retry count
          match addLog ⟨[], [2000]⟩ (recur (k+1) 0 (modelIndex+1)) with
          | .done (.err e) k2 l =>
            if includesSub (CallError.jsMessage e).toList fetchFailedNeedle = true ∧
                retryCount < maxRetries then
              addLog ⟨l.models, l.sleeps ++ [baseDelay * 2 ^ retryCount]⟩
                (recur k2 (retryCount+1) modelIndex)
            else .done (.err e) k2 l
          | other => other
        else if retryCount < maxRetries then
          -- chain exhausted: exponential backoff, restart at model index 0
          match addLog ⟨[], [baseDelay * 2 ^ retryCount]⟩ (recur (k+1) (retryCount+1) 0) with
          | .done (.err e) k2 l =>
            if includesSub (CallError.jsMessage e).toList fetchFailedNeedle = true ∧
                retryCount < maxRetries then
              addLog ⟨l.models, l.sleeps ++ [baseDelay * 2 ^ retryCount]⟩
                (recur k2 (retryCount+1) modelIndex)
            else .done (.err e) k2 l
          | other => other
        else .done (.err .rateLimitExhausted) (k+1) ⟨[], []⟩
      else if ¬ respOk r.status then
        if 500 ≤ r.status ∧ retryCount < maxRetries then
          -- server error: exponential backoff at the same model index
          match addLog ⟨[], [baseDelay * 2 ^ retryCount]⟩ (recur (k+1) (retryCount+1) modelIndex) with
          | .done (.err e) k2 l =>
            if includesSub (CallError.jsMessage e).toList fetchFailedNeedle = true ∧
                retryCount < maxRetries then
              addLog ⟨l.models, l.sleeps ++ [baseDelay * 2 ^ retryCount]⟩
                (recur k2 (retryCount+1) modelIndex)
            else .done (.err e) k2 l
          | other => other
        else .done (.err (.apiError r.status (jsOr r.errMsg r.statusText))) (k+1) ⟨[], []⟩
      else
        match r.choices with
        | .message c => .done (.content c) (k+1) ⟨[], []⟩
        | _ => .done (.err .invalidStructure) (k+1) ⟨[], []⟩

/-- `callOpenRouter` of part_000, run with explicit fuel against the
response oracle `rs`; arguments after the fuel are the next response
index, `retryCount` and `modelIndex`. -/
def callOpenRouter (rs : Nat → FetchResult) : Nat → Nat → Nat → Nat → RunResult
  | 0, _, _, _ => .fuelOut ⟨[], []⟩
  | fuel+1, k, retryCount, modelIndex =>
    callOpenRouterStep (callOpenRouter rs fuel) rs k retryCount modelIndex

/-- A response oracle on which every fetch is answered with HTTP 429. -/
def all429Responses : Nat → FetchResult :=
  fun _ => .resp ⟨429, .missing, none, ("Too Many Requests")⟩

/-- A successful completion response carrying the given content field. -/
def okResponse (c : Option String) : FetchResult :=
  .resp ⟨200, .message c, none, ("OK")⟩

/-- The `entry` field of the /analyze request body, as far as the
validation inspects it. -/
inductive EntryField where
  | missing
  | nonString
  | str (s : String)
  deriving DecidableEq

/-- The response payload shapes of the /analyze route. -/
inductive AnalyzeBody where
  | invalidInput (message : String)
  | success (analysis : String) (nature : String)
  | rateLimited
  | externalApiError (details : String)
  | internalError
  deriving DecidableEq

/-- Observable outcome of one /analyze request: HTTP status, payload,
the model indices queried remotely, and the user message handed to
`callOpenRouter` (none when no call was made). -/
structure AnalyzeOutcome where
  status : Nat
  body : AnalyzeBody
  remoteModels : List Nat
  sentMessage : Option String
  deriving DecidableEq

def invalidEntryMessage : String :=
  "Request body must contain an \"entry\" field with a string value"

def rateLimitNeedle : List Char := "Rate limit exceeded".toList

def apiErrorNeedle : List Char := "OpenRouter API error".toList

/-- The error mapping of the catch block of the /analyze route: a
message containing "Rate limit exceeded" answers 429, one containing
"OpenRouter API error" answers 502, anything else is an internal 500. -/
def analyzeErrOutcome (e : CallError) (models : List Nat) (sent : Option String) :
    AnalyzeOutcome :=
  if includesSub (CallError.jsMessage e).toList rateLimitNeedle = true then
    ⟨429, .rateLimited, models, sent⟩
  else if includesSub (CallError.jsMessage e).toList apiErrorNeedle = true then
    ⟨502, .externalApiError (CallError.jsMessage e), models, sent⟩
  else ⟨500, .internalError, models, sent⟩

/-- The /analyze route of part_000 (lines 281-385): validation, length
truncation, the completion call, sentiment extraction and the error
mapping of the catch block.  `none` is returned when the completion
call runs out of fuel, i.e. never finishes. -/
def analyzeRoute (rs : Nat → FetchResult) (fuel : Nat) (entry : EntryField) :
    Option AnalyzeOutcome :=
  match entry with
  | .missing => some ⟨400, .invalidInput invalidEntryMessage, [], none⟩
  | .nonString => some ⟨400, .invalidInput invalidEntryMessage, [], none⟩
  | .str s =>
    -- !entry rejects the empty string, typeof was checked above
    if s = ("") then some ⟨400, .invalidInput invalidEntryMessage, [], none⟩
    else if jsTrim s.toList = [] then
      some ⟨400, .invalidInput ("Journal entry cannot be empty"), [], none⟩
    else
      let trimmedEntry : String :=
        if 10000 < s.toList.length then String.mk (s.toList.take 10000) else s
      match callOpenRouter rs fuel 0 0 0 with
      | .fuelOut _ => none
      | .done (.content (some a)) _ log =>
        some ⟨200, .success (cleanedAnalysis a) (extractNature a), log.models, some trimmedEntry⟩
      | .done (.content none) _ log =>
        -- extractNature(undefined) throws a TypeError: internal error path
        some ⟨500, .internalError, log.models, some trimmedEntry⟩
      | .done (.err e) _ log =>
        some (analyzeErrOutcome e log.models (some trimmedEntry))

/-- The /analyze request bodies rejected by the validation. -/
def invalidEntry : EntryField → Prop
  | .missing => True
  | .nonString => True
  | .str s => s = ("") ∨ jsTrim s.toList = []

/-- An /analyze outcome that is a 400 invalid-input rejection issued
with no remote call and no message sent upstream. -/
def rejectedNoRemoteCall : Option AnalyzeOutcome → Bool
  | some ⟨400, .invalidInput _, [], none⟩ => true
  | _ => false

/-- The message the route hands to `callOpenRouter` for a given outcome. -/
def sentOf : Option AnalyzeOutcome → Option String
  | some o => o.sentMessage
  | none => none

/-- Result of `transcribeAudio`: the transcribed text, or a thrown
error. -/
inductive TranscriptionResult where
  | ok (text : String)
  | fail (message : String)
  deriving DecidableEq

/-- Observable outcome of one /transcribe request: response status and
whether removal of the temporary uploaded file was performed
(best-effort: a failure of the removal itself is ignored). -/
structure TranscribeOutcome where
  status : Nat
  fileRemoved : Bool
  deriving DecidableEq

/-- The /transcribe route of part_000 (lines 472-499): on success the
uploaded file is unlinked and a 200 returned (even for empty text); a
thrown transcription error reaches the catch, which does not unlink. -/
def transcribeRoute (file : Option String) (t : TranscriptionResult) : TranscribeOutcome :=
  match file with
  | none => ⟨400, false⟩
  | some _ =>
    match t with
    | .fail _ => ⟨500, false⟩
    | .ok _ => ⟨200, true⟩

/-- The /transcribe route of server.js (lines 149-182): the unlink lives
in a finally block, so it runs whenever the file was stored, both for
empty text (400) and non-empty text (200) and even on a thrown error. -/
def transcribeRouteServerJs (file : Option String) (t : TranscriptionResult) : TranscribeOutcome :=
  match file with
  | none => ⟨400, false⟩
  | some _ =>
    match t with
    | .fail _ => ⟨500, true⟩
    | .ok text => if jsTrim text.toList = [] then ⟨400, true⟩ else ⟨200, true⟩

/-- A choices field on which the structure check of part_000 line 252
fires (everything except a present message object). -/
def choicesBroken : Choices → Prop
  | .message _ => False
  | .missing => True
  | .emptyFirst => True
  | .noMessage => True

def isErrorResult : RunResult → Bool
  | .done (.err _) _ _ => true
  | .done (.content _) _ _ => false
  | .fuelOut _ => false

/-- A 429 on the first fetch, success afterwards. -/
def lastModel429ThenOk : Nat → FetchResult := fun k =>
  if k = 0 then .resp ⟨429, .missing, none, ("Too Many Requests")⟩
  else okResponse (some ("ok"))

/-- A 503 on the first fetch, success afterwards. -/
def serverErrThenOk : Nat → FetchResult := fun k =>
  if k = 0 then .resp ⟨503, .missing, some ("upstream exploded"), ("Service Unavailable")⟩
  else okResponse (some ("recovered"))

/-- 429 first, then two 500s, then success. -/
def chainResetResponses : Nat → FetchResult := fun k =>
  if k = 0 then .resp ⟨429, .missing, none, ("Too Many Requests")⟩
  else if k ≤ 2 then .resp ⟨500, .missing, none, ("Internal Server Error")⟩
  else okResponse (some ("finally"))

/-- Every fetch is answered with a 400. -/
def badRequestResponses : Nat → FetchResult := fun _ =>
  .resp ⟨400, .missing, some ("bad request body"), ("Bad Request")⟩

/-- Every fetch succeeds with a body whose message has no content field. -/
def okNoneResponses : Nat → FetchResult := fun _ => okResponse none

/-- Every fetch succeeds with content "x". -/
def okTextResponses : Nat → FetchResult := fun _ => okResponse (some ("x"))

/-- Every fetch is a 200 whose body has no choices array. -/
def brokenOkResponses : Nat → FetchResult := fun _ => .resp ⟨200, .missing, none, ("OK")⟩

/-- A journal entry of 10001 identical letters. -/
def bigEntry : String := String.mk (List.replicate 10001 'a')

/-! Helper lemmas. -/

theorem callOpenRouter_succ (rs : Nat → FetchResult) (fuel k rc mi : Nat) :
    callOpenRouter rs (fuel+1) k rc mi =
      callOpenRouterStep (callOpenRouter rs fuel) rs k rc mi := rfl

theorem step_ok {rs : Nat → FetchResult} {k rc mi fuel : Nat} {r : ApiResponse}
    {c : Option String} (hrs : rs k = .resp r) (hok : respOk r.status)
    (hch : r.choices = .message c) :
    callOpenRouter rs (fuel+1) k rc mi = .done (.content c) (k+1) ⟨[mi], []⟩ := by
  have h429 : ¬ (r.status = 429) := by
    rcases hok with ⟨h1, h2⟩
    omega
  simp only [callOpenRouter_succ, callOpenRouterStep, hrs]
  rw [if_neg h429, if_neg (not_not_intro hok), hch]
  simp [addLog, RunLog.append]

theorem step_invalid {rs : Nat → FetchResult} {k rc mi fuel : Nat} {r : ApiResponse}
    (hrs : rs k = .resp r) (hok : respOk r.status) (hbr : choicesBroken r.choices) :
    callOpenRouter rs (fuel+1) k rc mi = .done (.err .invalidStructure) (k+1) ⟨[mi], []⟩ := by
  have h429 : ¬ (r.status = 429) := by
    rcases hok with ⟨h1, h2⟩
    omega
  simp only [callOpenRouter_succ, callOpenRouterStep, hrs]
  rw [if_neg h429, if_neg (not_not_intro hok)]
  cases hch : r.choices with
  | message c =>
    rw [hch] at hbr
    exact hbr.elim
  | missing => simp [addLog, RunLog.append]
  | emptyFirst => simp [addLog, RunLog.append]
  | noMessage => simp [addLog, RunLog.append]

theorem step_5xx_cont {rs : Nat → FetchResult} {k rc mi fuel : Nat} {r : ApiResponse}
    {c : Option String} {n : Nat} {l : RunLog}
    (hrs : rs k = .resp r) (h5 : 500 ≤ r.status) (hrc : rc < maxRetries)
    (hin : callOpenRouter rs fuel (k+1) (rc+1) mi = .done (.content c) n l) :
    callOpenRouter rs (fuel+1) k rc mi =
      .done (.content c) n ⟨mi :: l.models, baseDelay * 2 ^ rc :: l.sleeps⟩ := by
  have h429 : ¬ (r.status = 429) := by omega
  have hok : ¬ respOk r.status := by
    rintro ⟨h1, h2⟩
    omega
  simp only [callOpenRouter_succ, callOpenRouterStep, hrs]
  rw [if_neg h429, if_pos hok, if_pos (And.intro h5 hrc), hin]
  simp [addLog, RunLog.append]

theorem step_429_advance_cont {rs : Nat → FetchResult} {k rc mi fuel : Nat} {r : ApiResponse}
    {c : Option String} {n : Nat} {l : RunLog}
    (hrs : rs k = .resp r) (hst : r.status = 429) (hmi : mi < chainLength - 1)
    (hin : callOpenRouter rs fuel (k+1) 0 (mi+1) = .done (.content c) n l) :
    callOpenRouter rs (fuel+1) k rc mi =
      .done (.content c) n ⟨mi :: l.models, 2000 :: l.sleeps⟩ := by
  simp only [callOpenRouter_succ, callOpenRouterStep, hrs]
  rw [if_pos hst, if_pos hmi, hin]
  simp [addLog, RunLog.append]

theorem all429_run : ∀ (fuel k rc mi : Nat), mi ≤ 4 → (mi = 4 → rc < 2) →
    ∃ l : RunLog, callOpenRouter all429Responses fuel k rc mi = .fuelOut l ∧
      l.models.length = fuel ∧ ∀ i ∈ l.models, i ≤ 4 := by
  intro fuel
  induction fuel with
  | zero =>
    intro k rc mi _ _
    exact ⟨⟨[], []⟩, rfl, rfl, by simp⟩
  | succ n ih =>
    intro k rc mi hmi hrc
    by_cases h4 : mi < 4
    · obtain ⟨l, hl, hlen, hmem⟩ := ih (k+1) 0 (mi+1) (by omega) (by omega)
      refine ⟨⟨mi :: l.models, 2000 :: l.sleeps⟩, ?_, by simp [hlen], ?_⟩
      · simp [callOpenRouter_succ, callOpenRouterStep, all429Responses, hl, chainLength,
          h4, addLog, RunLog.append]
      · intro i hi
        rcases List.mem_cons.mp hi with h | h
        · omega
        · exact hmem i h
    · have hmi4 : mi = 4 := by omega
      have hrc2 : rc < 2 := hrc hmi4
      obtain ⟨l, hl, hlen, hmem⟩ := ih (k+1) (rc+1) 0 (by omega) (by omega)
      refine ⟨⟨mi :: l.models, (baseDelay * 2 ^ rc) :: l.sleeps⟩, ?_, by simp [hlen], ?_⟩
      · simp [callOpenRouter_succ, callOpenRouterStep, all429Responses, hl, chainLength,
          h4, hrc2, maxRetries, addLog, RunLog.append]
      · intro i hi
        rcases List.mem_cons.mp hi with h | h
        · omega
        · exact hmem i h

theorem chain_getD_mem (p : String) (i : Nat) (h : i ≤ 4) :
    (MODEL_FALLBACKS p).getD i ("") ∈ MODEL_FALLBACKS p := by
  unfold MODEL_FALLBACKS
  interval_cases i <;>
    simp [List.getD_cons_zero, List.getD_cons_succ]

theorem stripTagOnce_of_no_tag : ∀ {l : List Char}, findTag l = none → stripTagOnce l = l := by
  intro l
  induction l with
  | nil => intro _; rfl
  | cons c cs ih =>
    intro h
    cases hm : matchTagAt (c :: cs) with
    | some v =>
      obtain ⟨nm, rest⟩ := v
      simp [findTag, hm] at h
    | none =>
      simp only [findTag, hm] at h
      simp only [stripTagOnce, hm]
      rw [ih h]

theorem jsTrim_nil_all_ws {l : List Char} (h : jsTrim l = []) :
    ∀ c ∈ l, jsWhitespace c = true := by
  unfold jsTrim at h
  rw [List.reverse_eq_nil_iff, List.dropWhile_eq_nil_iff] at h
  intro c hc
  rw [← List.takeWhile_append_dropWhile (p := jsWhitespace) (l := l)] at hc
  rcases List.mem_append.mp hc with h1 | h1
  · exact List.mem_takeWhile_imp h1
  · exact h c (List.mem_reverse.mpr h1)

/-! Claim theorems. -/

/-- C1: The claim says that when every completion call returns a 429, one
rate-limit response per model followed by exhaustion of the per-model
retry budget makes callOpenRouter fail with the rate-limit-exhausted
error.  The code instead never fails on an all-429 oracle: for every
amount of fuel the run is still unfinished (the retry at the last chain
entry restarts at model index 0 and every advance resets retryCount, so
the budget never exhausts and the throw at part_000 line 224 is never
reached).  The part of the claim that does hold is also recorded: every
model identifier ever queried is an entry of the configured chain. -/
theorem c1_all429_never_fails_and_stays_in_chain :
    ∀ (primary : String) (fuel : Nat),
      isFuelOut (callOpenRouter all429Responses fuel 0 0 0) = true ∧
      ((runLogOf (callOpenRouter all429Responses fuel 0 0 0)).models.all
        (fun i => decide ((MODEL_FALLBACKS primary).getD i ("") ∈ MODEL_FALLBACKS primary)))
        = true := by
  intro primary fuel
  obtain ⟨l, hl, _, hmem⟩ := all429_run fuel 0 0 0 (by omega) (by omega)
  rw [hl]
  refine ⟨rfl, ?_⟩
  simp only [runLogOf, List.all_eq_true, decide_eq_true_eq]
  intro i hi
  exact chain_getD_mem primary i (hmem i hi)

/-- C2: The claim says a 429 at the last chain entry with retries left
re-issues the call with modelIndex kept at the last entry.  Evaluating
the code at retryCount 0, modelIndex 4 with a 429 then a success shows
the wait is baseDelay * 2 ^ 0 as claimed, but the re-issued call queries
model index 0, the first entry of the chain, not the last: the models
trace is [4, 0] (part_000 line 221 passes 0, not modelIndex). -/
theorem c2_last_model_retry_queries_first_model :
    callOpenRouter lastModel429ThenOk 10 0 0 4 =
      .done (.content (some ("ok"))) 2 ⟨[4, 0], [baseDelay * 2 ^ 0]⟩ := by
  decide

/-- C3: The claim says callOpenRouter terminates on every sequence of
upstream responses after a bounded number of remote calls.  On the
all-429 oracle the run instead consumes its entire fuel for every fuel
amount, and the number of remote calls made equals the fuel, so the
number of calls is unbounded: the recursion never returns. -/
theorem c3_all429_runs_forever :
    ∀ fuel : Nat,
      isFuelOut (callOpenRouter all429Responses fuel 0 0 0) = true ∧
      (runLogOf (callOpenRouter all429Responses fuel 0 0 0)).models.length = fuel := by
  intro fuel
  obtain ⟨l, hl, hlen, _⟩ := all429_run fuel 0 0 0 (by omega) (by omega)
  rw [hl]
  exact ⟨rfl, hlen⟩

/-- C4: a 5xx with retries left is retried after baseDelay * 2 ^ retryCount
at the same model index, and a success on the retry returns the payload
(first part: models trace [mi, mi]); and the retry budget is scoped per
model index: even entering with retryCount 2 (budget spent), a 429
advance resets the count, so the next model still absorbs two 5xx
retries before succeeding (second part: models trace [mi, mi+1, mi+1,
mi+1] with backoffs restarting at baseDelay * 2 ^ 0). -/
theorem c4_server_error_retry_same_model_and_per_model_budget :
    (∀ (rs : Nat → FetchResult) (k rc mi fuel : Nat) (r : ApiResponse) (c : Option String),
      rc < maxRetries → rs k = .resp r → 500 ≤ r.status → rs (k+1) = okResponse c →
      callOpenRouter rs (fuel+2) k rc mi =
        .done (.content c) (k+2) ⟨[mi, mi], [baseDelay * 2 ^ rc]⟩) ∧
    (∀ (rs : Nat → FetchResult) (k rc mi fuel : Nat) (r r1 r2 : ApiResponse) (c : Option String),
      mi < chainLength - 1 → rs k = .resp r → r.status = 429 →
      rs (k+1) = .resp r1 → 500 ≤ r1.status →
      rs (k+2) = .resp r2 → 500 ≤ r2.status →
      rs (k+3) = okResponse c →
      callOpenRouter rs (fuel+4) k rc mi =
        .done (.content c) (k+4)
          ⟨[mi, mi+1, mi+1, mi+1], [2000, baseDelay * 2 ^ 0, baseDelay * 2 ^ 1]⟩) := by
  constructor
  · intro rs k rc mi fuel r c hrc hrs h5 hok
    have hin : callOpenRouter rs (fuel+1) (k+1) (rc+1) mi =
        .done (.content c) (k+2) ⟨[mi], []⟩ :=
      step_ok hok (by simp [respOk]) rfl
    exact step_5xx_cont hrs h5 hrc hin
  · intro rs k rc mi fuel r r1 r2 c hmi hrs hst hrs1 h51 hrs2 h52 hok
    have h3 : callOpenRouter rs (fuel+1) (k+3) 2 (mi+1) =
        .done (.content c) (k+4) ⟨[mi+1], []⟩ :=
      step_ok hok (by simp [respOk]) rfl
    have h2 : callOpenRouter rs (fuel+2) (k+2) 1 (mi+1) =
        .done (.content c) (k+4) ⟨[mi+1, mi+1], [baseDelay * 2 ^ 1]⟩ :=
      step_5xx_cont hrs2 h52 (by simp [maxRetries]) h3
    have h1 : callOpenRouter rs (fuel+3) (k+1) 0 (mi+1) =
        .done (.content c) (k+4) ⟨[mi+1, mi+1, mi+1], [baseDelay * 2 ^ 0, baseDelay * 2 ^ 1]⟩ :=
      step_5xx_cont hrs1 h51 (by simp [maxRetries]) h2
    exact step_429_advance_cont hrs hst hmi h1

/-- C4 witness: both parts applied at concrete inputs: a 503 then a
success starting at retryCount 0, model 2; and a 429 then two 500s then
a success starting at retryCount 2, model 0. -/
theorem c4_witness :
    callOpenRouter serverErrThenOk 2 0 0 2 =
      .done (.content (some ("recovered"))) 2 ⟨[2, 2], [baseDelay * 2 ^ 0]⟩ ∧
    callOpenRouter chainResetResponses 4 0 2 0 =
      .done (.content (some ("finally"))) 4
        ⟨[0, 1, 1, 1], [2000, baseDelay * 2 ^ 0, baseDelay * 2 ^ 1]⟩ :=
  ⟨c4_server_error_retry_same_model_and_per_model_budget.1 serverErrThenOk 0 0 2 0
      ⟨503, .missing, some ("upstream exploded"), ("Service Unavailable")⟩
      (some ("recovered")) (by simp [maxRetries]) rfl (by decide) rfl,
   c4_server_error_retry_same_model_and_per_model_budget.2 chainResetResponses 0 2 0 0
      ⟨429, .missing, none, ("Too Many Requests")⟩
      ⟨500, .missing, none, ("Internal Server Error")⟩
      ⟨500, .missing, none, ("Internal Server Error")⟩
      (some ("finally")) (by simp [chainLength]) rfl rfl rfl (by decide) rfl (by decide) rfl⟩

/-- C5: any non-success status other than 429 and other than a 5xx (for
instance a 400) makes callOpenRouter throw the upstream API error
carrying the status and the message immediately: exactly one fetch is
issued (the models trace is the single current index) and no sleep
happens. -/
theorem c5_other_error_fails_immediately
    (rs : Nat → FetchResult) (k rc mi fuel : Nat) (r : ApiResponse)
    (hrs : rs k = .resp r) (h429 : r.status ≠ 429) (hok : ¬ respOk r.status)
    (h5 : r.status < 500) :
    callOpenRouter rs (fuel+1) k rc mi =
      .done (.err (.apiError r.status (jsOr r.errMsg r.statusText))) (k+1) ⟨[mi], []⟩ := by
  have hand : ¬ (500 ≤ r.status ∧ rc < maxRetries) := by
    rintro ⟨a, _⟩
    omega
  simp only [callOpenRouter_succ, callOpenRouterStep, hrs]
  rw [if_neg h429, if_pos hok, if_neg hand]
  simp [addLog, RunLog.append]

/-- C5 witness: a 400 response fails at once with the upstream error. -/
theorem c5_witness :
    callOpenRouter badRequestResponses 1 0 0 1 =
      .done (.err (.apiError 400 (jsOr (some ("bad request body")) ("Bad Request")))) 1
        ⟨[1], []⟩ :=
  c5_other_error_fails_immediately badRequestResponses 0 0 1 0
    ⟨400, .missing, some ("bad request body"), ("Bad Request")⟩
    rfl (by decide) (by decide) (by decide)

/-- C6 counterexample: the claim says an absent
choices[0].message.content makes callOpenRouter fail with the
malformed-response error.  On a 200 whose message object has no content
field, the structure check of part_000 line 252 passes (it stops at
message), and the call returns the absent content as a value instead of
failing. -/
theorem c6_counterexample_content_absent_returns_undefined :
    callOpenRouter okNoneResponses 5 0 0 0 = .done (.content none) 1 ⟨[0], []⟩ ∧
    isErrorResult (callOpenRouter okNoneResponses 5 0 0 0) = false := by
  decide

/-- C6 amended: on a success status callOpenRouter returns
choices[0].message.content as-is (even when the content field itself is
absent), and it fails with the malformed-response (invalid structure)
error exactly when choices, the first choice, or its message field is
absent. -/
theorem c6_amended_success_extraction :
    (∀ (rs : Nat → FetchResult) (k rc mi fuel : Nat) (r : ApiResponse) (c : Option String),
      rs k = .resp r → respOk r.status → r.choices = .message c →
      callOpenRouter rs (fuel+1) k rc mi = .done (.content c) (k+1) ⟨[mi], []⟩) ∧
    (∀ (rs : Nat → FetchResult) (k rc mi fuel : Nat) (r : ApiResponse),
      rs k = .resp r → respOk r.status → choicesBroken r.choices →
      callOpenRouter rs (fuel+1) k rc mi =
        .done (.err .invalidStructure) (k+1) ⟨[mi], []⟩) :=
  ⟨fun _ _ _ _ _ _ _ hrs hok hch => step_ok hrs hok hch,
   fun _ _ _ _ _ _ hrs hok hbr => step_invalid hrs hok hbr⟩

/-- C6 witness: both parts at concrete inputs: a present content is
returned, and a missing choices array raises the invalid-structure
error. -/
theorem c6_witness :
    callOpenRouter okTextResponses 1 0 0 0 = .done (.content (some ("x"))) 1 ⟨[0], []⟩ ∧
    callOpenRouter brokenOkResponses 1 0 0 0 =
      .done (.err .invalidStructure) 1 ⟨[0], []⟩ :=
  ⟨c6_amended_success_extraction.1 okTextResponses 0 0 0 0
      ⟨200, .message (some ("x")), none, ("OK")⟩ (some ("x")) rfl (by decide) rfl,
   c6_amended_success_extraction.2 brokenOkResponses 0 0 0 0
      ⟨200, .missing, none, ("OK")⟩ rfl (by decide) trivial⟩

/-- C7 counterexample: the claim says an input with no tag has its body
returned unchanged.  The route trims the result, so a tagless body with
surrounding whitespace comes back changed. -/
theorem c7_counterexample_untagged_body_trimmed :
    extractNature (" hi ") = "positive" ∧ cleanedAnalysis (" hi ") = "hi" ∧
      (" hi " : String) ≠ "hi" := by
  decide

/-- C7 amended: the tagged example extracts nature "negative" with body
"Text"; and on any input in which the tag pattern matches nowhere the
nature defaults to "positive" and the body is returned unchanged except
that leading and trailing whitespace is trimmed. -/
theorem c7_amended_sentiment_extraction :
    (extractNature ("[SENTIMENT: negative]\nText") = "negative" ∧
      cleanedAnalysis ("[SENTIMENT: negative]\nText") = "Text") ∧
    ∀ s : String, findTag s.toList = none →
      extractNature s = "positive" ∧ cleanedAnalysis s = String.mk (jsTrim s.toList) := by
  refine ⟨⟨by decide, by decide⟩, ?_⟩
  intro s h
  constructor
  · unfold extractNature
    rw [h]
    rfl
  · unfold cleanedAnalysis
    rw [stripTagOnce_of_no_tag h]

/-- C7 witness: the tagless branch applied to a concrete body. -/
theorem c7_witness :
    extractNature ("No tag here") = "positive" ∧
      cleanedAnalysis ("No tag here") = String.mk (jsTrim ("No tag here").toList) :=
  c7_amended_sentiment_extraction.2 ("No tag here") (by decide)

/-- The catch-block error mapping never changes the sent message. -/
theorem analyzeErrOutcome_sent (e : CallError) (m : List Nat) (s : Option String) :
    (analyzeErrOutcome e m s).sentMessage = s := by
  unfold analyzeErrOutcome
  split
  · rfl
  · split
    · rfl
    · rfl

/-- C8: a missing entry field, a non-string entry, the empty string, or
a whitespace-only string is rejected by the /analyze route with a 400
invalid-input payload, with no model queried and no message handed to
the completion requester. -/
theorem c8_invalid_entry_rejected_no_remote_call
    (rs : Nat → FetchResult) (fuel : Nat) (e : EntryField) (h : invalidEntry e) :
    rejectedNoRemoteCall (analyzeRoute rs fuel e) = true := by
  cases e with
  | missing => rfl
  | nonString => rfl
  | str s =>
    rcases h with h | h
    · subst h
      rfl
    · by_cases hs : s = ("")
      · subst hs
        rfl
      · simp only [analyzeRoute]
        rw [if_neg hs, if_pos h]
        rfl

/-- C8 witness: a whitespace-only entry is rejected before any call. -/
theorem c8_witness :
    rejectedNoRemoteCall (analyzeRoute badRequestResponses 0 (.str ("   "))) = true :=
  c8_invalid_entry_rejected_no_remote_call badRequestResponses 0 (.str ("   "))
    (by simp only [invalidEntry]; right; decide)

/-- C9: whenever transcribeAudio returns (with empty or non-empty
text), the uploaded temporary file is removed, in the part_000 route
(unlink right after the call) and in the server.js route (unlink in the
finally block). -/
theorem c9_transcribe_success_removes_file (path text : String) :
    (transcribeRoute (some path) (.ok text)).fileRemoved = true ∧
    (transcribeRouteServerJs (some path) (.ok text)).fileRemoved = true := by
  refine ⟨rfl, ?_⟩
  simp only [transcribeRouteServerJs]
  split <;> rfl

/-- C10: an entry longer than 10000 characters (with a non-whitespace
character among the first 10000, so that validation passes either way)
is truncated to its first 10000 characters before being handed to
callOpenRouter, and the route responds exactly as it would for the
already-truncated entry: nothing in the response reports the
truncation. -/
theorem c10_analyze_truncates_silently
    (rs : Nat → FetchResult) (fuel : Nat) (s : String)
    (hlen : 10000 < s.toList.length)
    (hch : (s.toList.take 10000).any (fun c => !jsWhitespace c) = true) :
    (analyzeRoute rs fuel (.str s) = none ∨
      sentOf (analyzeRoute rs fuel (.str s)) = some (String.mk (s.toList.take 10000))) ∧
    analyzeRoute rs fuel (.str s) =
      analyzeRoute rs fuel (.str (String.mk (s.toList.take 10000))) := by
  obtain ⟨c0, hc0mem, hc0⟩ : ∃ c ∈ s.toList.take 10000, (!jsWhitespace c) = true :=
    List.any_eq_true.mp hch
  have hc0ws : jsWhitespace c0 = false := by simpa using hc0
  have hmem : c0 ∈ s.toList := List.take_subset _ _ hc0mem
  have hsne : ¬ (s = ("")) := by
    intro hcon
    subst hcon
    simp at hlen
  have hstrim : ¬ (jsTrim s.toList = []) := by
    intro hcon
    have := jsTrim_nil_all_ws hcon c0 hmem
    simp [hc0ws] at this
  have htlist : (String.mk (s.toList.take 10000)).toList = s.toList.take 10000 := rfl
  have htlen : (String.mk (s.toList.take 10000)).toList.length = 10000 := by
    rw [htlist, List.length_take]
    omega
  have htne : ¬ (String.mk (s.toList.take 10000) = ("")) := by
    intro hcon
    have h0 : (String.mk (s.toList.take 10000)).toList.length = 0 := by
      rw [hcon]
      rfl
    omega
  have httrim : ¬ (jsTrim (String.mk (s.toList.take 10000)).toList = []) := by
    rw [htlist]
    intro hcon
    have := jsTrim_nil_all_ws hcon c0 hc0mem
    simp [hc0ws] at this
  have htnotlong : ¬ (10000 < (String.mk (s.toList.take 10000)).toList.length) := by
    omega
  constructor
  · simp only [analyzeRoute]
    rw [if_neg hsne, if_neg hstrim, if_pos hlen]
    cases hres : callOpenRouter rs fuel 0 0 0 with
    | fuelOut log =>
      left
      rfl
    | done cr n log =>
      right
      rcases cr with co | e2
      · rcases co with _ | a <;> rfl
      · show (analyzeErrOutcome e2 log.models
            (some (String.mk (s.toList.take 10000)))).sentMessage =
          some (String.mk (s.toList.take 10000))
        rw [analyzeErrOutcome_sent]
  · simp only [analyzeRoute]
    rw [if_neg hsne, if_neg hstrim, if_pos hlen, if_neg htne, if_neg httrim,
      if_neg htnotlong]

/-- C10 witness: a 10001-letter entry is truncated to its first 10000
characters and answered exactly like the truncated entry. -/
theorem c10_witness :
    (analyzeRoute okTextResponses 1 (.str bigEntry) = none ∨
      sentOf (analyzeRoute okTextResponses 1 (.str bigEntry)) =
        some (String.mk (bigEntry.toList.take 10000))) ∧
    analyzeRoute okTextResponses 1 (.str bigEntry) =
      analyzeRoute okTextResponses 1 (.str (String.mk (bigEntry.toList.take 10000))) :=
  c10_analyze_truncates_silently okTextResponses 1 bigEntry
    (by
      have h : bigEntry.toList = List.replicate 10001 'a' := rfl
      rw [h, List.length_replicate]
      omega)
    (by
      have h : bigEntry.toList = List.replicate 10001 'a' := rfl
      rw [h]
      decide)
